import Mathlib

/-!
Verification of the chat-session / diagnosis-trigger core of the
personal-color chatbot repository.

The definitions below are shallow embeddings of the TypeScript source:

* `ChatState`, `handleSendMessage`, `chatStep`, `runChat` embed the
  per-session component state machine of the chat page
  (`src/unnamed/part_001`: the `userTurnCount` / `hasAutoReportGenerated`
  state hooks and the `handleSendMessage` handler; `src/unnamed/part_002`
  holds copies with the identical trigger condition).
* `ChatbotApi.analyze` retry logic is embedded from
  `src/unnamed/part_004` (`class ChatbotApi`, method `analyze`).
* The survey weight table is embedded from
  `src/frontend/src/constants/personalColorQuestions.ts`.
* `normalizePersonalColor` is embedded from
  `src/frontend/src/utils/personalColorUtils.ts`.
* Definitions whose doc comment starts `Modelled from the spec:` stand for
  backend code that is not among the repository files (only its clients
  or documentation are) and follow the spec's words.
-/

/-- Component state of the chat page (`src/unnamed/part_001`, lines 428-429):
`useState(0)` for the user turn count and `useState(false)` for the
auto-report flag. -/
structure ChatState where
  userTurnCount : Nat
  hasAutoReportGenerated : Bool
deriving Repr, DecidableEq

/-- `useState` initial values: `useState(0)` and `useState(false)`. -/
def initialChatState : ChatState :=
  { userTurnCount := 0, hasAutoReportGenerated := false }

/-- Session-start effect (`src/unnamed/part_001`, lines 613-616): when the
started session is reused and carries a numeric `user_turns`, the client
restores the counter with `setUserTurnCount(res.user_turns)`; otherwise the
initial state stands. -/
def restoreSession (reused : Bool) (user_turns : Nat) : ChatState :=
  if reused then { initialChatState with userTurnCount := user_turns }
  else initialChatState

/-- What one invocation of `handleSendMessage` leaves behind:
whether the diagnosis auto-trigger fired (`if (newTurnCount === 3 && ...)`),
the value of `hasAutoReportGenerated` immediately after the trigger branch's
first statement (`setHasAutoReportGenerated(true)`), and the component state
once the invocation (its `setTimeout` callback included) has completed. -/
structure SendOutcome where
  triggerFired : Bool
  flagAfterTrigger : Bool
  state : ChatState
deriving Repr, DecidableEq

/-- Embedding of `handleSendMessage` (`src/unnamed/part_001`, lines 780-1230)
for a send that reached a non-null `latestItem`.

* `chatRes` — truthiness of `latestItem.chat_res`;
* `diagnosisOk` — whether `analyzeChatForDiagnosis` resolved or threw.

Source steps: `const newTurnCount = userTurnCount + 1; setUserTurnCount(newTurnCount);`
then `if (newTurnCount === 3 && !hasAutoReportGenerated && latestItem.chat_res)` the
trigger fires: `setHasAutoReportGenerated(true)`, `await analyzeChatForDiagnosis(...)`,
and in BOTH the success branch (lines 1135-1142) and the catch branch
(lines 1167-1174) the `setTimeout` callback runs `setUserTurnCount(0);
setHasAutoReportGenerated(false);`. -/
def handleSendMessage (s : ChatState) (chatRes : Bool) (diagnosisOk : Bool) :
    SendOutcome :=
  let newTurnCount := s.userTurnCount + 1
  if (newTurnCount == 3) && (! s.hasAutoReportGenerated) && chatRes then
    if diagnosisOk then
      { triggerFired := true, flagAfterTrigger := true
        state := { userTurnCount := 0, hasAutoReportGenerated := false } }
    else
      { triggerFired := true, flagAfterTrigger := true
        state := { userTurnCount := 0, hasAutoReportGenerated := false } }
  else
    { triggerFired := false, flagAfterTrigger := s.hasAutoReportGenerated
      state := { s with userTurnCount := newTurnCount } }

/-- The ways a turn of the chat page can go, as the source handles them:

* `welcome` — the assistant-only welcome of the session-start effect
  (`analyze({ question: '' , ...})`); it contains no counter code;
* `sendEmpty` — `handleSendMessage` early-returns on blank input or while
  busy (`if (!inputMessage.trim() || isBusy) return;`, lines 781-782);
* `sendAnalyzeError` — `analyze` threw; the catch block appends an error
  message and touches neither the counter nor the flag;
* `sendNoItem` — `analyze` resolved but `response.items` was empty, so
  `latestItem` is falsy and the `if (latestItem)` body is skipped;
* `send chatRes diagnosisOk` — a completed send with non-empty user text
  that reached `latestItem`. -/
inductive ChatEvent where
  | welcome
  | sendEmpty
  | sendAnalyzeError
  | sendNoItem
  | send (chatRes : Bool) (diagnosisOk : Bool)
deriving Repr, DecidableEq

/-- Whether the event is a completed user send (a non-empty user turn that
was appended together with its assistant response). -/
def isUserSend : ChatEvent → Bool
  | .send _ _ => true
  | _ => false

/-- One step of the chat page: only a completed send runs the counter and
trigger code of `handleSendMessage`; every other event leaves the state as
it is. -/
def chatStep (s : ChatState) : ChatEvent → SendOutcome
  | .welcome => ⟨false, s.hasAutoReportGenerated, s⟩
  | .sendEmpty => ⟨false, s.hasAutoReportGenerated, s⟩
  | .sendAnalyzeError => ⟨false, s.hasAutoReportGenerated, s⟩
  | .sendNoItem => ⟨false, s.hasAutoReportGenerated, s⟩
  | .send chatRes diagnosisOk => handleSendMessage s chatRes diagnosisOk

/-- Run a sequence of events from a state. -/
def runChat (s : ChatState) : List ChatEvent → ChatState
  | [] => s
  | e :: es => runChat (chatStep s e).state es

/-- The per-event trigger firings along a run. -/
def runFired (s : ChatState) : List ChatEvent → List Bool
  | [] => []
  | e :: es => (chatStep s e).triggerFired :: runFired (chatStep s e).state es

/-- Whether the pattern (first argument) is an initial segment of the text
(second argument), character by character. -/
def charsStartWith : List Char → List Char → Bool
  | [], _ => true
  | _ :: _, [] => false
  | p :: ps, c :: cs => p == c && charsStartWith ps cs

/-- Whether the pattern occurs in the text at some position. -/
def charsContain : List Char → List Char → Bool
  | [], pat => pat.isEmpty
  | c :: cs, pat => charsStartWith pat (c :: cs) || charsContain cs pat

/-- JS `s.includes(pat)`: `pat` occurs in `s` as a contiguous substring. -/
def stringIncludes (s pat : String) : Bool :=
  charsContain s.data pat.data

/-- An HTTP-level failure as the axios catch block reads it:
`err?.response?.status` and `err?.response?.data?.detail`
(`status = none` stands for a request that got no response). -/
structure ApiError where
  status : Option Nat
  detail : String
deriving Repr, DecidableEq

/-- `ChatbotRequest` (`src/unnamed/part_004`, lines 7-10). -/
structure ChatbotRequest where
  question : String
  history_id : Option Nat
deriving Repr, DecidableEq

/-- `ChatbotHistoryResponse` (`src/unnamed/part_004`, lines 42-45), kept to
the field the retry logic touches. -/
structure ChatbotHistoryResponse where
  history_id : Nat
deriving Repr, DecidableEq

/-- The body `this.startSession()` resolves with (`{ history_id, reused,
user_turns }`); the retry logic reads only `history_id`. -/
structure StartSessionResponse where
  history_id : Nat
deriving Repr, DecidableEq

/-- The detail text the defensive retry looks for:
`detail.includes('이미 종료된 세션')` (`src/unnamed/part_004`, line 91). -/
def sessionClosedDetail : String := "이미 종료된 세션"

/-- The guard of the defensive retry (`src/unnamed/part_004`, line 91):
`status === 400 && typeof detail === 'string' && detail.includes('이미 종료된 세션')`. -/
def isSessionClosedError (e : ApiError) : Bool :=
  (e.status == some 400) && stringIncludes e.detail sessionClosedDetail

namespace ChatbotApi

/-- Embedding of `ChatbotApi.analyze` (`src/unnamed/part_004`, lines 69-108).
The network is an oracle `post` from an analyze request to its outcome, and
`startRes` is the outcome `this.startSession()` would produce. Returns the
result surfaced to the caller together with the list of `/chatbot/analyze`
POSTs performed, in order. Source behavior: on a session-closed failure it
starts a fresh session; when that yields a truthy `history_id` it retries the
same request once with `history_id` replaced; any failure on that path
rethrows the ORIGINAL error. -/
def analyze (post : ChatbotRequest → Except ApiError ChatbotHistoryResponse)
    (startRes : Except ApiError StartSessionResponse)
    (request : ChatbotRequest) :
    Except ApiError ChatbotHistoryResponse × List ChatbotRequest :=
  match post request with
  | .ok r => (.ok r, [request])
  | .error err =>
      if isSessionClosedError err then
        match startRes with
        | .ok startResp =>
            if startResp.history_id != 0 then
              let retryReq := { request with history_id := some startResp.history_id }
              match post retryReq with
              | .ok r => (.ok r, [request, retryReq])
              | .error _ => (.error err, [request, retryReq])
            else (.error err, [request])
        | .error _ => (.error err, [request])
      else (.error err, [request])

end ChatbotApi

/-- Session status of the spec's data model: `status ∈ {open, closed}`
(`opened` spelt out because `open` is a Lean keyword). -/
inductive SessionStatus where
  | opened
  | closed
deriving Repr, DecidableEq

/-- Modelled from the spec: the backend Session Store's `ChatSession`
("history") record. The backend behind `POST /chatbot/start` is not among
the repository files; only its client (`ChatbotApi.startSession`,
`src/frontend/src/api/chatbot.ts`) is. Spec §3: identity, owning user,
optional influencer reference, status, derived `user_turn_count`. -/
structure ChatSession where
  id : Nat
  user : Nat
  influencer : Option String
  status : SessionStatus
  user_turns : Nat
deriving Repr, DecidableEq

/-- Modelled from the spec: the Session Store's persistent state. -/
structure SessionStore where
  sessions : List ChatSession
  nextId : Nat
deriving Repr, DecidableEq

/-- Modelled from the spec: look up the open session of a (user, influencer)
pair, per the §3 invariant "at most one open session may exist per
(user, influencer) pair at a time". -/
def findOpenSession (st : SessionStore) (user : Nat) (influencer : Option String) :
    Option ChatSession :=
  st.sessions.find? (fun s =>
    s.user == user && s.influencer == influencer && s.status == SessionStatus.opened)

/-- What `start` returns: the updated store plus the client-visible triple
`(session_id, reused, user_turns)` of spec §4.1. -/
structure StartResult where
  store : SessionStore
  session_id : Nat
  reused : Bool
  user_turns : Nat
deriving Repr, DecidableEq

/-- Modelled from the spec: the backend `start(user, influencer?)` operation
behind `POST /chatbot/start`, which is not among the repository files. Spec
§4.1: "start(user, influencer?) -> (session_id, reused: bool, user_turns:
int). Constraint: if an open session already exists for (user, influencer),
return it with `reused=true` and the current `user_turns`, rather than
creating a duplicate." A fresh session opens with `user_turns = 0`. -/
def startSession (st : SessionStore) (user : Nat) (influencer : Option String) :
    StartResult :=
  match findOpenSession st user influencer with
  | some s =>
      { store := st, session_id := s.id, reused := true, user_turns := s.user_turns }
  | none =>
      let fresh : ChatSession :=
        { id := st.nextId, user := user, influencer := influencer,
          status := SessionStatus.opened, user_turns := 0 }
      { store := { sessions := fresh :: st.sessions, nextId := st.nextId + 1 },
        session_id := fresh.id, reused := false, user_turns := 0 }

/-- The four seasonal tones of the survey. -/
inductive Season where
  | spring
  | summer
  | autumn
  | winter
deriving Repr, DecidableEq

/-- Per-season integer weights of one survey option
(`scores: { spring: _, summer: _, autumn: _, winter: _ }`). -/
structure SeasonScores where
  spring : Nat
  summer : Nat
  autumn : Nat
  winter : Nat
deriving Repr, DecidableEq

/-- Read one season's weight. -/
def SeasonScores.get (w : SeasonScores) : Season → Nat
  | .spring => w.spring
  | .summer => w.summer
  | .autumn => w.autumn
  | .winter => w.winter

/-- One option of a survey question
(`src/frontend/src/constants/personalColorQuestions.ts`). -/
structure SurveyOption where
  id : String
  label : String
  scores : SeasonScores
deriving Repr, DecidableEq

/-- One survey question of `PERSONAL_COLOR_QUESTIONS`. -/
structure PersonalColorQuestion where
  id : Nat
  category : String
  question : String
  options : List SurveyOption
deriving Repr, DecidableEq

/-- Embedding of `PERSONAL_COLOR_QUESTIONS`
(`src/frontend/src/constants/personalColorQuestions.ts`, lines 6-195). -/
def PERSONAL_COLOR_QUESTIONS : List PersonalColorQuestion := [
  { id := 1, category := "피부 색상",
    question := "자연광에서 손목 안쪽 피부를 보면 전체적으로 어떤 색감이 도나요?",
    options := [
      { id := "opt_warm_undertone", label := "노란빛, 복숭아빛 - 황금색 느낌",
        scores := ⟨2, 0, 2, 0⟩ },
      { id := "opt_cool_undertone", label := "분홍빛, 붉은빛 - 분홍색 느낌",
        scores := ⟨0, 2, 0, 2⟩ },
      { id := "opt_neutral_undertone", label := "두 색감이 섞여있음",
        scores := ⟨1, 1, 1, 1⟩ }] },
  { id := 2, category := "피부 명도",
    question := "전반적인 피부 톤의 밝기는 어떻게 되나요?",
    options := [
      { id := "opt_light_skin", label := "밝음 (아이보리, 밝은 베이지 톤)",
        scores := ⟨2, 2, 0, 0⟩ },
      { id := "opt_medium_skin", label := "중간 (자연스러운 중간 톤)",
        scores := ⟨1, 1, 2, 1⟩ },
      { id := "opt_dark_skin", label := "어두움 (깊고 어두운 톤)",
        scores := ⟨0, 0, 1, 2⟩ }] },
  { id := 3, category := "머리카락 색상",
    question := "자연 상태의 머리카락 색상은 어떤가요? (염색하지 않은 본래 색기준)",
    options := [
      { id := "opt_hair_golden", label := "금색, 밝은 갈색, 적갈색",
        scores := ⟨3, 0, 1, 0⟩ },
      { id := "opt_hair_ashy", label := "회색기미, 애쉬 갈색, 밝은 갈색",
        scores := ⟨0, 3, 0, 0⟩ },
      { id := "opt_hair_deep_warm", label := "구리색, 초콜릿, 검정색",
        scores := ⟨0, 0, 3, 0⟩ },
      { id := "opt_hair_deep_cool", label := "검정색, 진한 갈색",
        scores := ⟨0, 0, 0, 3⟩ }] },
  { id := 4, category := "눈동자 색상",
    question := "눈동자의 색상과 톤은 어떻게 되나요?",
    options := [
      { id := "opt_eye_warm_light", label := "황금 갈색, 토파즈, 밝은 아쿠아",
        scores := ⟨3, 0, 1, 0⟩ },
      { id := "opt_eye_cool_soft", label := "연한 파란색, 회색 파란색, 소프트 갈색",
        scores := ⟨0, 3, 0, 0⟩ },
      { id := "opt_eye_warm_deep", label := "올리브 그린, 황금 갈색, 검은색",
        scores := ⟨0, 0, 3, 0⟩ },
      { id := "opt_eye_cool_clear", label := "검은색, 회색, 깊은 파란색",
        scores := ⟨0, 0, 0, 3⟩ }] },
  { id := 5, category := "손목 정맥",
    question := "손목 안쪽의 정맥 색을 보면 어떻게 보이나요?",
    options := [
      { id := "opt_vein_golden_green", label := "녹색 또는 노란 녹색",
        scores := ⟨2, 0, 2, 0⟩ },
      { id := "opt_vein_blue", label := "파란색 또는 보라 파란색",
        scores := ⟨0, 2, 0, 2⟩ },
      { id := "opt_vein_mixed", label := "녹색과 파란색이 섞여있음",
        scores := ⟨1, 1, 1, 1⟩ }] },
  { id := 6, category := "보조 특성 - 혈색",
    question := "얼굴의 혈색은 어떻게 보이나요?",
    options := [
      { id := "opt_complexion_healthy", label := "생기있고 투명함 - 밝고 건강한 인상",
        scores := ⟨2, 1, 0, 0⟩ },
      { id := "opt_complexion_rosy", label := "분홍색 또는 붉은 색감 - 분홍빛 도는 인상",
        scores := ⟨0, 2, 0, 1⟩ },
      { id := "opt_complexion_muted", label := "차분하거나 흐릿함 - 깊고 자연스러운 인상",
        scores := ⟨0, 0, 2, 1⟩ }] },
  { id := 7, category := "메탈 악세서리",
    question := "금장과 은장 중 얼굴을 더 밝고 생기있게 보이게 하는 것은?",
    options := [
      { id := "opt_metal_warm", label := "골드/구리색",
        scores := ⟨2, 0, 2, 0⟩ },
      { id := "opt_metal_cool", label := "실버/백금",
        scores := ⟨0, 2, 0, 2⟩ },
      { id := "opt_metal_both", label := "둘 다 어울림",
        scores := ⟨1, 1, 1, 1⟩ }] },
  { id := 8, category := "화이트/베이지 톤",
    question := "순백색과 아이보리/크림색 중 피부를 더 환하고 깔끔하게 보이게 하는 색은?",
    options := [
      { id := "opt_white_pure", label := "순백색 - 깨끗하고 선명한 흰색",
        scores := ⟨0, 2, 0, 2⟩ },
      { id := "opt_white_ivory", label := "아이보리/크림색 - 따뜻하고 부드러운 흰색",
        scores := ⟨2, 0, 2, 0⟩ },
      { id := "opt_white_unsure", label := "둘 다 비슷하게 보임",
        scores := ⟨1, 1, 1, 1⟩ }] }]

/-- One submitted answer (`SurveyAnswer` of
`src/frontend/src/api/survey.ts`, lines 8-12). -/
structure SurveyAnswer where
  question_id : Nat
  option_id : String
  option_label : String
deriving Repr, DecidableEq

/-- The weights the chosen option of a question carries (an unknown option
contributes nothing). -/
def optionScores (q : PersonalColorQuestion) (optionId : String) : SeasonScores :=
  match q.options.find? (fun o => o.id == optionId) with
  | some o => o.scores
  | none => ⟨0, 0, 0, 0⟩

/-- Modelled from the spec: one season's total over an answer set. The
fixed-form classifier behind `POST /survey/submit`
(`materialize_from_survey`) is not among the repository files; only the
weight table and the API client are. Spec §4.3: "total score per season is
summed across all answered questions". -/
def seasonTotal (answers : List SurveyAnswer) (season : Season) : Nat :=
  answers.foldl (fun acc a =>
    match PERSONAL_COLOR_QUESTIONS.find? (fun q => q.id == a.question_id) with
    | some q => acc + (optionScores q a.option_id).get season
    | none => acc) 0

/-- Modelled from the spec: the maximum score a season can attain — per
question the largest weight that season carries among the options, summed
over all questions ("that season's share of the maximum possible score"). -/
def seasonMaxPossible (season : Season) : Nat :=
  PERSONAL_COLOR_QUESTIONS.foldl (fun acc q =>
    acc + q.options.foldl (fun m o => max m (o.scores.get season)) 0) 0

/-- Modelled from the spec: "the season with the highest total is the
result"; ties keep the earlier season in the fixed order
spring, summer, autumn, winter (spec §9 leaves tie-breaking open, so a fixed
priority order is chosen; the claims below involve no tie). -/
def bestSeason (answers : List SurveyAnswer) : Season :=
  let pick := fun (best challenger : Season) =>
    if seasonTotal answers challenger > seasonTotal answers best then challenger
    else best
  pick (pick (pick Season.spring Season.summer) Season.autumn) Season.winter

/-- Modelled from the spec: "confidence is that season's share of the
maximum possible score". -/
def surveyConfidence (answers : List SurveyAnswer) : ℚ :=
  (seasonTotal answers (bestSeason answers) : ℚ)
    / (seasonMaxPossible (bestSeason answers) : ℚ)

/-- Modelled from the spec: `materialize_from_survey` reduced to the
classification it commits — result tone and confidence. -/
def materialize_from_survey (answers : List SurveyAnswer) : Season × ℚ :=
  (bestSeason answers, surveyConfidence answers)

/-- The answer set in which every question's chosen option carries the
maximal autumn weight (labels as in the source table). -/
def autumnMaxAnswers : List SurveyAnswer := [
  ⟨1, "opt_warm_undertone", "노란빛, 복숭아빛 - 황금색 느낌"⟩,
  ⟨2, "opt_medium_skin", "중간 (자연스러운 중간 톤)"⟩,
  ⟨3, "opt_hair_deep_warm", "구리색, 초콜릿, 검정색"⟩,
  ⟨4, "opt_eye_warm_deep", "올리브 그린, 황금 갈색, 검은색"⟩,
  ⟨5, "opt_vein_golden_green", "녹색 또는 노란 녹색"⟩,
  ⟨6, "opt_complexion_muted", "차분하거나 흐릿함 - 깊고 자연스러운 인상"⟩,
  ⟨7, "opt_metal_warm", "골드/구리색"⟩,
  ⟨8, "opt_white_ivory", "아이보리/크림색 - 따뜻하고 부드러운 흰색"⟩]

/-- A knowledge answer as the combined route returns it: the text plus which
sources actually contributed (the metadata tag the spec requires). -/
structure KnowledgeAnswer where
  answer : String
  immutableContributed : Bool
  mutableContributed : Bool
deriving Repr, DecidableEq

/-- The typed error of the combined route when no source is available. -/
inductive KnowledgeError where
  | knowledgeUnavailable
deriving Repr, DecidableEq

/-- The `combined_answer` template of `_handle_combined` as the integration
guide (`src/unnamed/part_007`) shows it: the immutable answer under the
personal-color heading, the mutable answer under the trend heading. -/
def combineAnswers (immutableAnswer mutableAnswer : String) : String :=
  "**퍼스널 컬러 관점:**\n" ++ immutableAnswer
    ++ "\n\n**최신 트렌드 관점:**\n" ++ mutableAnswer ++ "\n"

/-- Modelled from the spec: `_handle_combined` (rag_service/api/app.py) is
not among the repository files; only the integration guide describing it
(`src/unnamed/part_007`) is. Spec §4.4: `combined` "must run both handlers
and never silently drop one"; merge policy: "if either handler errors,
degrade to the other handler's answer alone (never fail the whole request
for a partial failure) and tag the result metadata with which sources
actually contributed ... If both handlers error, return a typed
`KnowledgeUnavailable` error rather than a fabricated answer." Both
handlers are invoked on the query; their outcomes decide the merge. -/
def handleCombined (immutableHandler mutableHandler : String → Except Unit String)
    (query : String) : Except KnowledgeError KnowledgeAnswer :=
  match immutableHandler query, mutableHandler query with
  | .ok ia, .ok ma =>
      .ok { answer := combineAnswers ia ma,
            immutableContributed := true, mutableContributed := true }
  | .ok ia, .error _ =>
      .ok { answer := ia, immutableContributed := true, mutableContributed := false }
  | .error _, .ok ma =>
      .ok { answer := ma, immutableContributed := false, mutableContributed := true }
  | .error _, .error _ => .error KnowledgeError.knowledgeUnavailable

/-- `(x || '').toString().trim().toLowerCase()` applied to a nullable
string argument (`src/frontend/src/utils/personalColorUtils.ts`, lines 2-3). -/
def normalizeInput (x : Option String) : String :=
  ((x.getD "").trim).toLower

/-- `/쿨|cool|blue|bluebase|블루|실버|차가운/` (line 7). -/
def coolPrimaryKeywords : List String :=
  ["쿨", "cool", "blue", "bluebase", "블루", "실버", "차가운"]

/-- `/웜|warm|yellow|옐로|gold|따뜻한/` (line 8). -/
def warmPrimaryKeywords : List String :=
  ["웜", "warm", "yellow", "옐로", "gold", "따뜻한"]

/-- `/spring|봄|coral|peach|밝은|화사|bright|clear/` (line 13). -/
def springKeywords : List String :=
  ["spring", "봄", "coral", "peach", "밝은", "화사", "bright", "clear"]

/-- `/summer|여름|pastel|soft|부드러운|파스텔|라벤더/` (line 14). -/
def summerKeywords : List String :=
  ["summer", "여름", "pastel", "soft", "부드러운", "파스텔", "라벤더"]

/-- `/autumn|가을|deep|dark|brown|브라운|카키|차분|깊은/` (line 15). -/
def autumnKeywords : List String :=
  ["autumn", "가을", "deep", "dark", "brown", "브라운", "카키", "차분", "깊은"]

/-- `/winter|겨울|vivid|clear|진한|강렬|선명|비비드|블랙|화이트/` (line 16). -/
def winterKeywords : List String :=
  ["winter", "겨울", "vivid", "clear", "진한", "강렬", "선명", "비비드", "블랙", "화이트"]

/-- `/bright|clear/` of the no-sub override (line 19). -/
def brightClearKeywords : List String := ["bright", "clear"]

/-- `.test(s)` of a regex that is an alternation of literal substrings. -/
def regexTest (pats : List String) (s : String) : Bool :=
  pats.any (fun pat => stringIncludes s pat)

/-- The result shape of `normalizePersonalColor`. -/
structure NormalizedPersonalColor where
  primary : String
  sub : String
  displayName : String
deriving Repr, DecidableEq

/-- Embedding of `normalizePersonalColor`
(`src/frontend/src/utils/personalColorUtils.ts`, lines 1-26): normalize the
primary to 웜/쿨 (cool keywords first, default 웜), the sub to
봄/여름/가을/겨울 (default 봄 under 웜, 여름 under 쿨), apply the
bright/clear override when `sub` is falsy, and build
`displayName = sub ++ " " ++ primary ++ "톤"`. -/
def normalizePersonalColor (primary sub : Option String) : NormalizedPersonalColor :=
  let p := normalizeInput primary
  let s := normalizeInput sub
  let primaryNorm : String :=
    if regexTest coolPrimaryKeywords p then "쿨"
    else if regexTest warmPrimaryKeywords p then "웜"
    else "웜"
  let subNormInit : String := if primaryNorm = "웜" then "봄" else "여름"
  let subNormKeyed : String :=
    if regexTest springKeywords s then "봄"
    else if regexTest summerKeywords s then "여름"
    else if regexTest autumnKeywords s then "가을"
    else if regexTest winterKeywords s then "겨울"
    else subNormInit
  let subFalsy : Bool :=
    match sub with
    | none => true
    | some t => t == ""
  let subNorm : String :=
    if subFalsy && regexTest brightClearKeywords p then
      if primaryNorm = "웜" then "봄" else "겨울"
    else subNormKeyed
  { primary := primaryNorm, sub := subNorm,
    displayName := subNorm ++ " " ++ primaryNorm ++ "톤" }

/-- C1: for every append of a user turn, the diagnosis auto-trigger fires
exactly when the updated user turn count equals 3 AND the per-session
"already auto-generated" flag is false AND the latest assistant structured
payload (`chat_res`) is non-null; immediately upon firing, the flag is set
to true. -/
theorem C1_trigger_fires_iff_threshold (s : ChatState) (chatRes diagnosisOk : Bool) :
    (handleSendMessage s chatRes diagnosisOk).triggerFired
      = ((s.userTurnCount + 1 == 3) && (! s.hasAutoReportGenerated) && chatRes)
    ∧ (handleSendMessage s chatRes diagnosisOk).flagAfterTrigger
      = (s.hasAutoReportGenerated
          || (handleSendMessage s chatRes diagnosisOk).triggerFired) := by
  cases hb : s.hasAutoReportGenerated <;> cases chatRes <;> cases diagnosisOk <;>
    by_cases h2 : s.userTurnCount = 2 <;>
      simp [handleSendMessage, hb, h2]

/-- C2 counterexample: run the machine from the initial state through two
payload-bearing sends and a third send whose structured payload is missing.
The state then has `userTurnCount = 3` (so `turns >= 3`) with the flag still
false, and the next send carries a payload — yet the trigger does not fire,
because the source compares `newTurnCount === 3` and the updated count is 4. -/
theorem C2_counterexample :
    runChat initialChatState
        [ChatEvent.send true true, ChatEvent.send true true,
         ChatEvent.send false true]
      = { userTurnCount := 3, hasAutoReportGenerated := false }
    ∧ (chatStep
        (runChat initialChatState
          [ChatEvent.send true true, ChatEvent.send true true,
           ChatEvent.send false true])
        (ChatEvent.send true true)).triggerFired = false := by
  decide

/-- C2 (amended): the trigger check compares the updated turn count for
equality with 3, so it is a one-shot: once the counter has reached 3 or
more (without a reset), no later send fires the trigger, whatever the
payload; a send that does not fire also leaves the flag unchanged (so a
payload missing at turn 3 does not set the flag — but nothing retries
later in that cycle). -/
theorem C2_trigger_one_shot_at_three (s : ChatState) (chatRes diagnosisOk : Bool)
    (h : 3 ≤ s.userTurnCount) :
    (handleSendMessage s chatRes diagnosisOk).triggerFired = false
    ∧ (handleSendMessage s chatRes diagnosisOk).state.hasAutoReportGenerated
        = s.hasAutoReportGenerated := by
  have h2 : s.userTurnCount ≠ 2 := by omega
  simp [handleSendMessage, h2]

/-- Witness for `C2_trigger_one_shot_at_three` at the concrete state
reached when the payload was missing at turn 3. -/
theorem C2_trigger_one_shot_at_three_witness :
    3 ≤ (3 : Nat)
    ∧ ((handleSendMessage ⟨3, false⟩ true true).triggerFired = false
        ∧ (handleSendMessage ⟨3, false⟩ true true).state.hasAutoReportGenerated
            = (⟨3, false⟩ : ChatState).hasAutoReportGenerated) :=
  ⟨by decide, C2_trigger_one_shot_at_three ⟨3, false⟩ true true (by decide)⟩

/-- C3: coupled reset invariant. In every step of the chat page machine,
the user turn counter is reset (a completed send that leaves the counter
at 0 — a send otherwise always sets it to `userTurnCount + 1 ≠ 0`) exactly
when the flag is cleared in that same step (the flag stood true right
after the trigger branch and is false in the final state). -/
theorem C3_coupled_reset (s : ChatState) (e : ChatEvent) :
    (isUserSend e = true ∧ (chatStep s e).state.userTurnCount = 0)
      ↔ ((chatStep s e).flagAfterTrigger = true
          ∧ (chatStep s e).state.hasAutoReportGenerated = false) := by
  cases e with
  | welcome => cases hb : s.hasAutoReportGenerated <;> simp [chatStep, isUserSend, hb]
  | sendEmpty => cases hb : s.hasAutoReportGenerated <;> simp [chatStep, isUserSend, hb]
  | sendAnalyzeError =>
      cases hb : s.hasAutoReportGenerated <;> simp [chatStep, isUserSend, hb]
  | sendNoItem => cases hb : s.hasAutoReportGenerated <;> simp [chatStep, isUserSend, hb]
  | send chatRes diagnosisOk =>
      cases hb : s.hasAutoReportGenerated <;> cases chatRes <;> cases diagnosisOk <;>
        by_cases h2 : s.userTurnCount = 2 <;>
          simp [chatStep, handleSendMessage, isUserSend, hb, h2]

/-- C4 counterexample: two payload sends, then a third whose
`analyzeChatForDiagnosis` call fails. The trigger fires on that third send
(`runFired` third entry `true`), and the failure handler resets the state to
`⟨0, false⟩` — so the next payload-bearing send does NOT re-fire the trigger
(fourth entry `false`), contradicting "retryable on the next turn". -/
theorem C4_counterexample :
    runFired initialChatState
        [ChatEvent.send true true, ChatEvent.send true true,
         ChatEvent.send true false, ChatEvent.send true true]
      = [false, false, true, false]
    ∧ runChat initialChatState
        [ChatEvent.send true true, ChatEvent.send true true,
         ChatEvent.send true false]
      = { userTurnCount := 0, hasAutoReportGenerated := false } := by
  decide

/-- C4 (amended): when the trigger fires and materialization fails, the
catch branch resets BOTH the counter and the flag, so the flag never
permanently blocks retry — but the failed materialization is retried only
after a fresh 3-turn cycle: the trigger re-fires on the third subsequent
payload-bearing send, not on the very next one. -/
theorem C4_failure_resets_both_then_new_cycle (s : ChatState)
    (h : (handleSendMessage s true false).triggerFired = true) :
    (handleSendMessage s true false).state
      = { userTurnCount := 0, hasAutoReportGenerated := false }
    ∧ runFired (handleSendMessage s true false).state
        [ChatEvent.send true true, ChatEvent.send true true,
         ChatEvent.send true true]
      = [false, false, true] := by
  by_cases h2 : s.userTurnCount = 2
  · cases hb : s.hasAutoReportGenerated
    · have hstate : (handleSendMessage s true false).state
          = { userTurnCount := 0, hasAutoReportGenerated := false } := by
        simp [handleSendMessage, h2, hb]
      exact ⟨hstate, by rw [hstate]; decide⟩
    · exfalso; simp [handleSendMessage, h2, hb] at h
  · exfalso; simp [handleSendMessage, h2] at h

/-- Witness for `C4_failure_resets_both_then_new_cycle` at the state just
before the third turn of a cycle. -/
theorem C4_failure_resets_witness :
    (handleSendMessage ⟨2, false⟩ true false).triggerFired = true
    ∧ ((handleSendMessage ⟨2, false⟩ true false).state
          = { userTurnCount := 0, hasAutoReportGenerated := false }
        ∧ runFired (handleSendMessage ⟨2, false⟩ true false).state
            [ChatEvent.send true true, ChatEvent.send true true,
             ChatEvent.send true true]
          = [false, false, true]) :=
  ⟨by decide, C4_failure_resets_both_then_new_cycle ⟨2, false⟩ (by decide)⟩

/-- C5: per completed send with non-empty user text the counter becomes
`userTurnCount + 1` (or 0 when the coupled reset of a fired trigger runs in
the same step); the assistant-only welcome and a blank-input attempt leave
the counter untouched; and across every event the counter never decreases
except through that coupled reset. -/
theorem C5_turn_counter_increment (s : ChatState) (e : ChatEvent)
    (chatRes diagnosisOk : Bool) :
    ((handleSendMessage s chatRes diagnosisOk).triggerFired = false →
        (handleSendMessage s chatRes diagnosisOk).state.userTurnCount
          = s.userTurnCount + 1)
    ∧ ((handleSendMessage s chatRes diagnosisOk).triggerFired = true →
        (handleSendMessage s chatRes diagnosisOk).state.userTurnCount = 0)
    ∧ (chatStep s ChatEvent.welcome).state.userTurnCount = s.userTurnCount
    ∧ (chatStep s ChatEvent.sendEmpty).state.userTurnCount = s.userTurnCount
    ∧ (s.userTurnCount ≤ (chatStep s e).state.userTurnCount
        ∨ ((chatStep s e).triggerFired = true
            ∧ (chatStep s e).state.userTurnCount = 0)) := by
  refine ⟨?_, ?_, by simp [chatStep], by simp [chatStep], ?_⟩
  · cases hb : s.hasAutoReportGenerated <;> cases chatRes <;> cases diagnosisOk <;>
      by_cases h2 : s.userTurnCount = 2 <;>
        simp [handleSendMessage, hb, h2]
  · cases hb : s.hasAutoReportGenerated <;> cases chatRes <;> cases diagnosisOk <;>
      by_cases h2 : s.userTurnCount = 2 <;>
        simp [handleSendMessage, hb, h2]
  · cases e with
    | welcome => simp [chatStep]
    | sendEmpty => simp [chatStep]
    | sendAnalyzeError => simp [chatStep]
    | sendNoItem => simp [chatStep]
    | send cR dOk =>
        cases hb : s.hasAutoReportGenerated <;> cases cR <;> cases dOk <;>
          by_cases h2 : s.userTurnCount = 2 <;>
            simp [chatStep, handleSendMessage, hb, h2]

/-- C6: starting a session for a (user, influencer) pair and then starting
again without an intervening close yields the same `session_id`, with
`reused = true` and the session's current `user_turns`, the second time —
and the client's session-start effect resumes counting from exactly that
returned `user_turns` value. -/
theorem C6_start_twice_reuses (st : SessionStore) (user : Nat)
    (influencer : Option String) :
    (startSession (startSession st user influencer).store user influencer).session_id
      = (startSession st user influencer).session_id
    ∧ (startSession (startSession st user influencer).store user influencer).reused
      = true
    ∧ (startSession (startSession st user influencer).store user influencer).user_turns
      = (startSession st user influencer).user_turns
    ∧ (restoreSession
        (startSession (startSession st user influencer).store user influencer).reused
        (startSession (startSession st user influencer).store user influencer).user_turns).userTurnCount
      = (startSession st user influencer).user_turns := by
  cases hf : findOpenSession st user influencer with
  | some s => simp [startSession, hf, restoreSession, initialChatState]
  | none =>
      have hf2 : findOpenSession
          { sessions := { id := st.nextId, user := user, influencer := influencer,
                          status := SessionStatus.opened, user_turns := 0 } :: st.sessions,
            nextId := st.nextId + 1 } user influencer
          = some { id := st.nextId, user := user, influencer := influencer,
                   status := SessionStatus.opened, user_turns := 0 } := by
        simp [findOpenSession, List.find?]
      simp [startSession, hf, hf2, restoreSession, initialChatState]

/-- C7: `ChatbotApi.analyze` handles a session-closed failure (HTTP 400 with
a detail containing "이미 종료된 세션") by starting a new session and
retrying the same request exactly once with the new session id; when the
retry also fails the ORIGINAL error is surfaced, and no run of `analyze`
ever performs more than one automatic retry (at most two POSTs). -/
theorem C7_analyze_session_closed_retry
    (post : ChatbotRequest → Except ApiError ChatbotHistoryResponse)
    (startRes : Except ApiError StartSessionResponse)
    (request : ChatbotRequest) (err e2 : ApiError) (startResp : StartSessionResponse)
    (h1 : post request = Except.error err)
    (h2 : isSessionClosedError err = true)
    (h3 : startRes = Except.ok startResp)
    (h4 : startResp.history_id ≠ 0)
    (h5 : post { request with history_id := some startResp.history_id }
            = Except.error e2) :
    (ChatbotApi.analyze post startRes request).1 = Except.error err
    ∧ (ChatbotApi.analyze post startRes request).2
        = [request, { request with history_id := some startResp.history_id }]
    ∧ ∀ p s r, (ChatbotApi.analyze p s r).2.length ≤ 2 := by
  refine ⟨?_, ?_, ?_⟩
  · simp [ChatbotApi.analyze, h1, h2, h3, h4, h5]
  · simp [ChatbotApi.analyze, h1, h2, h3, h4, h5]
  · intro p s r
    cases hp : p r with
    | ok v => simp [ChatbotApi.analyze, hp]
    | error e =>
        cases hce : isSessionClosedError e with
        | false => simp [ChatbotApi.analyze, hp, hce]
        | true =>
            cases s with
            | error e3 => simp [ChatbotApi.analyze, hp, hce]
            | ok sresp =>
                by_cases hid : sresp.history_id = 0
                · simp [ChatbotApi.analyze, hp, hce, hid]
                · cases hp2 : p { r with history_id := some sresp.history_id } <;>
                    simp [ChatbotApi.analyze, hp, hce, hid, hp2]

/-- Witness for `C7_analyze_session_closed_retry`: a network that always
answers 400 with "이미 종료된 세션입니다.", a session restart that returns
id 7, and a retry that fails again — the original error is surfaced after
exactly the original POST and one retry POST. -/
theorem C7_analyze_retry_witness :
    (ChatbotApi.analyze
        (fun _ => Except.error { status := some 400, detail := "이미 종료된 세션입니다." })
        (Except.ok { history_id := 7 })
        { question := "질문", history_id := some 1 }).1
      = Except.error { status := some 400, detail := "이미 종료된 세션입니다." }
    ∧ (ChatbotApi.analyze
        (fun _ => Except.error { status := some 400, detail := "이미 종료된 세션입니다." })
        (Except.ok { history_id := 7 })
        { question := "질문", history_id := some 1 }).2
      = [{ question := "질문", history_id := some 1 },
         { question := "질문", history_id := some 7 }]
    ∧ ∀ p s r, (ChatbotApi.analyze p s r).2.length ≤ 2 :=
  C7_analyze_session_closed_retry
    (fun _ => Except.error { status := some 400, detail := "이미 종료된 세션입니다." })
    (Except.ok { history_id := 7 })
    { question := "질문", history_id := some 1 }
    { status := some 400, detail := "이미 종료된 세션입니다." }
    { status := some 400, detail := "이미 종료된 세션입니다." }
    { history_id := 7 }
    rfl (by decide) rfl (by decide) rfl

/-- C8: under the spec's weighted-scoring classifier over the source weight
table, the answer set choosing every question's maximal-autumn option
totals 18 for autumn — the maximum attainable autumn score — so the result
is autumn with confidence 1. -/
theorem C8_survey_all_autumn :
    materialize_from_survey autumnMaxAnswers = (Season.autumn, 1)
    ∧ seasonTotal autumnMaxAnswers Season.autumn = 18
    ∧ seasonMaxPossible Season.autumn = 18 := by
  have hb : bestSeason autumnMaxAnswers = Season.autumn := by decide
  have h1 : seasonTotal autumnMaxAnswers Season.autumn = 18 := by decide
  have h2 : seasonMaxPossible Season.autumn = 18 := by decide
  have hc : surveyConfidence autumnMaxAnswers = 1 := by
    unfold surveyConfidence
    rw [hb, h1, h2]
    norm_num
  exact ⟨by simp [materialize_from_survey, hb, hc], h1, h2⟩

/-- C9: the combined route runs both handlers; when exactly one errors the
call still returns the other's answer, tagged with which sources
contributed; when both error it returns the typed `KnowledgeUnavailable`
error; when both succeed the merged answer is tagged with both sources. -/
theorem C9_combined_route_degrades
    (immutableHandler mutableHandler : String → Except Unit String)
    (query ia ma : String) :
    (immutableHandler query = Except.ok ia →
        mutableHandler query = Except.error () →
        handleCombined immutableHandler mutableHandler query
          = Except.ok { answer := ia, immutableContributed := true,
                        mutableContributed := false })
    ∧ (immutableHandler query = Except.error () →
        mutableHandler query = Except.ok ma →
        handleCombined immutableHandler mutableHandler query
          = Except.ok { answer := ma, immutableContributed := false,
                        mutableContributed := true })
    ∧ (immutableHandler query = Except.error () →
        mutableHandler query = Except.error () →
        handleCombined immutableHandler mutableHandler query
          = Except.error KnowledgeError.knowledgeUnavailable)
    ∧ (immutableHandler query = Except.ok ia →
        mutableHandler query = Except.ok ma →
        handleCombined immutableHandler mutableHandler query
          = Except.ok { answer := combineAnswers ia ma,
                        immutableContributed := true, mutableContributed := true }) := by
  refine ⟨?_, ?_, ?_, ?_⟩ <;> intro hi hm <;> simp [handleCombined, hi, hm]

/-- C10: `normalizePersonalColor` is total and shape-normalizing — for every
pair of nullable inputs the primary is 웜 or 쿨, the sub is one of
봄/여름/가을/겨울, the display name is `sub ++ " " ++ primary ++ "톤"`, and
inputs matching no keyword default to 봄 웜톤. -/
theorem C10_normalizePersonalColor_shape (primary sub : Option String) :
    ((normalizePersonalColor primary sub).primary = "웜"
        ∨ (normalizePersonalColor primary sub).primary = "쿨")
    ∧ ((normalizePersonalColor primary sub).sub = "봄"
        ∨ (normalizePersonalColor primary sub).sub = "여름"
        ∨ (normalizePersonalColor primary sub).sub = "가을"
        ∨ (normalizePersonalColor primary sub).sub = "겨울")
    ∧ (normalizePersonalColor primary sub).displayName
        = (normalizePersonalColor primary sub).sub ++ " "
            ++ (normalizePersonalColor primary sub).primary ++ "톤"
    ∧ ((regexTest coolPrimaryKeywords (normalizeInput primary) = false
        ∧ regexTest warmPrimaryKeywords (normalizeInput primary) = false
        ∧ regexTest brightClearKeywords (normalizeInput primary) = false
        ∧ regexTest springKeywords (normalizeInput sub) = false
        ∧ regexTest summerKeywords (normalizeInput sub) = false
        ∧ regexTest autumnKeywords (normalizeInput sub) = false
        ∧ regexTest winterKeywords (normalizeInput sub) = false) →
        normalizePersonalColor primary sub
          = { primary := "웜", sub := "봄", displayName := "봄 웜톤" }) := by
  refine ⟨?_, ?_, rfl, ?_⟩
  · cases hc : regexTest coolPrimaryKeywords (normalizeInput primary) <;>
      simp [normalizePersonalColor, hc]
  · simp only [normalizePersonalColor]
    repeat' split
    all_goals simp
  · rintro ⟨hc, hw, hbr, hsp, hsu, hau, hwi⟩
    simp [normalizePersonalColor, hc, hw, hbr, hsp, hsu, hau, hwi]
